import Mathlib

/-!
A shallow embedding of `src/AsteroidRunner.ino`, an Arduino sketch implementing
a side-scrolling asteroid-dodging game on a 16x2 character LCD, together with
theorems checking the natural-language specification of the sketch against it.

Modelling conventions:
* The LCD is a write-only sink.  Calls that only draw glyphs or text
  (`lcd.write`, `lcd.print`, `lcd.clear`, `lcd.setCursor`, `lcd.scrollDisplayLeft`,
  `lcd.createChar`) are omitted; `lcd.setBacklight` is tracked in the
  `backlight` field because the spec talks about the backlight color.
* `uint8_t` values are modelled as `Nat`; where 8-bit wraparound can actually
  occur (the `13 - wave` subtraction in `play_game`, the `wave++` increment in
  `end_wave_delay`, the bitmask complement in `read_button_clicks`) the
  reduction modulo 256 is written out explicitly.  `score` has C type `long`
  (signed); signed overflow is undefined behaviour in C++, so `score` is
  modelled as an unbounded `Int`.
* Times (`millis()` values, `unsigned long`) are modelled as `Nat` with
  truncated subtraction; the 32-bit wraparound of `millis()` after ~49 days is
  not modelled, no claim being about it.
* `random(n)` of the Arduino core returns `random() % n` for `n > 0`.  The raw
  entropy for the two draws of a frame is an input (`rand0`, `rand1`); the
  draw itself is `rand % asteroidType wave`, mirroring the bound the sketch
  passes to `random`.
* The C array `uint8_t asteroids[40]` is modelled as a total function
  `Nat → Nat`; the indices the sketch uses are `render_col` and `player_col`,
  which stay in `[0, 39]` (proved below as claim C8).
* The state function pointer is modelled as the enumeration `StateTag`; the
  `loop()` body (state-change bookkeeping, `read_button_clicks`, dispatch) is
  the function `tick`.
-/

namespace AsteroidRunner

/-- Button masks from the Adafruit RGB LCD shield library header
(`Adafruit_RGBLCDShield.h`), an external dependency of the sketch. -/
def BUTTON_SELECT : Nat := 0x01

def BUTTON_RIGHT : Nat := 0x02

def BUTTON_DOWN : Nat := 0x04

def BUTTON_UP : Nat := 0x08

def BUTTON_LEFT : Nat := 0x10

/-- Backlight colors, from `enum BackLightColor` in the sketch. -/
def RED : Nat := 0x1

def YELLOW : Nat := 0x3

def GREEN : Nat := 0x2

def TEAL : Nat := 0x6

def BLUE : Nat := 0x4

def VIOLET : Nat := 0x5

def WHITE : Nat := 0x7

/-- The state function pointer of the sketch, as an enumeration: one tag per
state function. -/
inductive StateTag where
  | beginSplashScreen
  | animateSplashScreen
  | startGame
  | beginWave
  | beginWaveDelay
  | playGame
  | endWave
  | endWaveDelay
  | gameOver
  | gameOverDelay
deriving DecidableEq, Repr

/-- The global mutable state of the sketch. -/
structure Game where
  /-- `void (*state)()`: the current state function. -/
  tag : StateTag
  /-- `void (*last_state)()`: the state on the previous tick (`NULL` at boot). -/
  lastTag : Option StateTag
  /-- `unsigned long last_state_change_time`. -/
  lastStateChangeTime : Nat
  /-- `static uint8_t last_buttons` of `read_button_clicks` (initialised 0). -/
  lastButtons : Nat
  /-- `uint8_t clicked_buttons`. -/
  clickedButtons : Nat
  /-- `uint8_t asteroids[40]`: two-bit-pair cells, one per column. -/
  asteroids : Nat → Nat
  /-- `uint8_t shield_power`. -/
  shield_power : Nat
  /-- `uint8_t wave`. -/
  wave : Nat
  /-- `long score` (signed overflow is UB, so unbounded `Int`). -/
  score : Int
  /-- `uint8_t render_col` (initialised 16). -/
  render_col : Nat
  /-- `uint8_t player_col` (initialised 0). -/
  player_col : Nat
  /-- `uint8_t player_row` (initialised 0). -/
  player_row : Nat
  /-- `long last_render` (initialised 0; only ever assigned `time`). -/
  last_render : Nat
  /-- The last color passed to `lcd.setBacklight`. -/
  backlight : Nat

/-- The external inputs consumed by one iteration of `loop()`: the `millis()`
reading, the raw pressed-button bitmask returned by `lcd.readButtons()`, and
the entropy behind the two `random(...)` draws of a frame. -/
structure Input where
  time : Nat
  buttons : Nat
  rand0 : Nat
  rand1 : Nat

/-- Global state right after `setup()`: C++ zero-initialised globals, the
explicit initialisers `render_col = 16`, `player_col = 0`, `player_row = 0`,
`last_render = 0`, and `state = begin_splash_screen`. -/
def initGame : Game where
  tag := StateTag.beginSplashScreen
  lastTag := none
  lastStateChangeTime := 0
  lastButtons := 0
  clickedButtons := 0
  asteroids := fun _ => 0
  shield_power := 0
  wave := 0
  score := 0
  render_col := 16
  player_col := 0
  player_row := 0
  last_render := 0
  backlight := 0

/-- `clicked_buttons = (last_buttons ^ buttons) & (~buttons)` on `uint8_t`:
the complement of an 8-bit value is its XOR with 0xFF. -/
def clickMask (last buttons : Nat) : Nat :=
  (last ^^^ buttons) &&& (255 ^^^ buttons)

/-- `read_button_clicks()`: store the click mask and remember the raw mask
(`lcd.readButtons()` returns `uint8_t`, hence the reduction mod 256). -/
def read_button_clicks (buttons : Nat) (g : Game) : Game :=
  { g with clickedButtons := clickMask g.lastButtons (buttons % 256),
           lastButtons := buttons % 256 }

/-- `begin_splash_screen()`: draw the title (display only), set TEAL
backlight, go to `animate_splash_screen`. -/
def begin_splash_screen (g : Game) : Game :=
  { g with backlight := TEAL, tag := StateTag.animateSplashScreen }

/-- `animate_splash_screen()`: the blink of the prompt only touches the LCD
(its `static` variables drive no game state), so only the SELECT-click
transition is modelled. -/
def animate_splash_screen (g : Game) : Game :=
  if g.clickedButtons &&& BUTTON_SELECT ≠ 0 then
    { g with tag := StateTag.startGame }
  else
    g

/-- `start_game()`: reset `score = 0`, `wave = 1`, go to `begin_wave`. -/
def start_game (g : Game) : Game :=
  { g with score := 0, wave := 1, tag := StateTag.beginWave }

/-- `begin_wave()`: draw the banner (display only, GREEN backlight), clear the
asteroid array (`memset(asteroids, 0, 40)`), reset the wave state, go to
`begin_wave_delay`. -/
def begin_wave (g : Game) : Game :=
  { g with backlight := GREEN,
           asteroids := fun _ => 0,
           shield_power := 10,
           render_col := 16,
           player_col := 0,
           player_row := 0,
           last_render := 0,
           tag := StateTag.beginWaveDelay }

/-- `begin_wave_delay()`: after 3000ms since the state change, go to
`play_game`. -/
def begin_wave_delay (time : Nat) (g : Game) : Game :=
  if 3000 ≤ time - g.lastStateChangeTime then
    { g with tag := StateTag.playGame }
  else
    g

/-- `end_wave()`: `score += shield_power * 10`, draw the banner (display only,
GREEN backlight), go to `end_wave_delay`. -/
def end_wave (g : Game) : Game :=
  { g with score := g.score + g.shield_power * 10,
           backlight := GREEN,
           tag := StateTag.endWaveDelay }

/-- `end_wave_delay()`: after 3000ms since the state change, `wave++` (8-bit
wraparound) and go to `begin_wave`. -/
def end_wave_delay (time : Nat) (g : Game) : Game :=
  if 3000 ≤ time - g.lastStateChangeTime then
    { g with wave := (g.wave + 1) % 256, tag := StateTag.beginWave }
  else
    g

/-- `game_over()`: draw the banner (display only, RED backlight), go to
`game_over_delay`. -/
def game_over (g : Game) : Game :=
  { g with backlight := RED, tag := StateTag.gameOverDelay }

/-- `game_over_delay()`: after 5000ms since the state change, go back to
`begin_splash_screen`. -/
def game_over_delay (time : Nat) (g : Game) : Game :=
  if 5000 ≤ time - g.lastStateChangeTime then
    { g with tag := StateTag.beginSplashScreen }
  else
    g

/-- The backlight chosen from the shield-power thresholds at the start of a
frame of `play_game`. -/
def shieldBacklight (shield : Nat) : Nat :=
  if shield > 6 then BLUE else if shield > 3 then YELLOW else RED

/-- Circular column advance: `c = (c < 39) ? c + 1 : 0`. -/
def advanceCol (c : Nat) : Nat :=
  if c < 39 then c + 1 else 0

/-- Point update of the asteroid array. -/
def updArr (a : Nat → Nat) (i v : Nat) : Nat → Nat :=
  fun j => if j = i then v else a j

/-- `uint8_t asteroid_type = 13 - wave; asteroid_type = (asteroid_type < 3) ?
3 : asteroid_type;` — the subtraction happens in `int` and the result is
stored into a `uint8_t`, i.e. taken mod 256. -/
def asteroidType (wave : Nat) : Nat :=
  let t := (13 + 256 - wave % 256) % 256
  if t < 3 then 3 else t

/-- The obstacle bits OR-ed into the cell for logical row `i` when the random
draw is `r`: `case 0` sets `0x01 << (i*2)` (top asteroid), `case 1` sets
`0x02 << (i*2)` (bottom asteroid), `case 2` sets both bits only when
`wave > 5`, any other value sets nothing. -/
def obstacleMask (wave r i : Nat) : Nat :=
  if r = 0 then 0x01 <<< (i * 2)
  else if r = 1 then 0x02 <<< (i * 2)
  else if r = 2 then (if wave > 5 then 0x03 <<< (i * 2) else 0)
  else 0

/-- The value of the cleared-then-regenerated cell of the render column after
the `for (int i=0; i<2; i++)` loop: the cell starts at 0 and the two rows OR
in disjoint bit pairs.  The draw for row `i` is `random(asteroid_type)`,
i.e. `rand_i % asteroidType wave`. -/
def genColumn (wave rand0 rand1 : Nat) : Nat :=
  (0 ||| obstacleMask wave (rand0 % asteroidType wave) 0)
    ||| obstacleMask wave (rand1 % asteroidType wave) 1

/-- The bit of the half-row the ship occupies, used by the collision check:
for `player_row % 2 == 0` (ship in the top half) the code tests
`0x01 << (player_row / 2 * 2)`, otherwise `0x02 << (player_row / 2 * 2)`. -/
def shipHalfBit (player_row : Nat) : Nat :=
  if player_row % 2 = 0 then 0x01 <<< (player_row / 2 * 2)
  else 0x02 <<< (player_row / 2 * 2)

/-- The bit of the other half of the ship's column — the one the ship is NOT
occupying.  The code tests it only to pick the composite ship-plus-asteroid
glyph when drawing, never for the collision check. -/
def otherHalfBit (player_row : Nat) : Nat :=
  if player_row % 2 = 0 then 0x02 <<< (player_row / 2 * 2)
  else 0x01 <<< (player_row / 2 * 2)

/-- The asteroid array after the render column has been advanced, cleared and
regenerated on a frame. -/
def frameAsteroids (inp : Input) (g : Game) : Nat → Nat :=
  updArr g.asteroids (advanceCol g.render_col)
    (genColumn g.wave inp.rand0 inp.rand1)

/-- The collision condition of a frame: after the ship's column has advanced,
the bit of the half-row the ship occupies is set in its cell. -/
def hitCheck (inp : Input) (g : Game) : Prop :=
  frameAsteroids inp g (advanceCol g.player_col) &&& shipHalfBit g.player_row ≠ 0

instance (inp : Input) (g : Game) : Decidable (hitCheck inp g) := by
  unfold hitCheck; infer_instance

/-- The body of `if (time - last_render >= 250) { ... }` in `play_game()`:
backlight from shield thresholds, advance and regenerate the render column,
`score++` twice, scroll (display only), advance the player column, draw the
ship (display only), collision check, record `last_render = time`. -/
def renderStep (inp : Input) (g : Game) : Game :=
  let a := frameAsteroids inp g
  let pc := advanceCol g.player_col
  if hitCheck inp g then
    if g.shield_power = 0 then
      { g with backlight := RED,
               render_col := advanceCol g.render_col,
               asteroids := a,
               score := g.score + 2,
               player_col := pc,
               tag := StateTag.gameOver,
               last_render := inp.time }
    else
      { g with backlight := RED,
               render_col := advanceCol g.render_col,
               asteroids := a,
               score := g.score + 2,
               player_col := pc,
               shield_power := g.shield_power - 1,
               last_render := inp.time }
  else
    { g with backlight := shieldBacklight g.shield_power,
             render_col := advanceCol g.render_col,
             asteroids := a,
             score := g.score + 2,
             player_col := pc,
             last_render := inp.time }

/-- The per-tick ship movement of `play_game()`: an up click decrements the
row with floor 0 (`player_row = (player_row > 0) ? player_row - 1 : 0`), then
a down click increments it with ceiling 3. -/
def shipMove (g : Game) : Game :=
  let g2 := if g.clickedButtons &&& BUTTON_UP ≠ 0 then
              { g with player_row := if g.player_row > 0 then g.player_row - 1 else 0 }
            else g
  if g2.clickedButtons &&& BUTTON_DOWN ≠ 0 then
    { g2 with player_row := if g2.player_row < 3 then g2.player_row + 1 else 3 }
  else g2

/-- The final `if (score % 500 == 0) state = end_wave;` of `play_game()`. -/
def waveCheck (g : Game) : Game :=
  if g.score % 500 = 0 then { g with tag := StateTag.endWave } else g

/-- `play_game()`: the render-gated frame, then the per-tick ship movement,
then the score-multiple-of-500 wave check. -/
def play_game (inp : Input) (g : Game) : Game :=
  waveCheck (shipMove (if 250 ≤ inp.time - g.last_render then renderStep inp g else g))

/-- `state()`: dispatch on the current state function. -/
def dispatch (inp : Input) (g : Game) : Game :=
  match g.tag with
  | StateTag.beginSplashScreen => begin_splash_screen g
  | StateTag.animateSplashScreen => animate_splash_screen g
  | StateTag.startGame => start_game g
  | StateTag.beginWave => begin_wave g
  | StateTag.beginWaveDelay => begin_wave_delay inp.time g
  | StateTag.playGame => play_game inp g
  | StateTag.endWave => end_wave g
  | StateTag.endWaveDelay => end_wave_delay inp.time g
  | StateTag.gameOver => game_over g
  | StateTag.gameOverDelay => game_over_delay inp.time g

/-- The state-change bookkeeping at the top of `loop()`:
`if (last_state != state) { last_state = state; last_state_change_time = time; }`. -/
def stateChangeCheck (time : Nat) (g : Game) : Game :=
  if g.lastTag ≠ some g.tag then
    { g with lastTag := some g.tag, lastStateChangeTime := time }
  else
    g

/-- One iteration of `loop()`: bookkeeping, `read_button_clicks()`, then the
current state function. -/
def tick (inp : Input) (g : Game) : Game :=
  dispatch inp (read_button_clicks inp.buttons (stateChangeCheck inp.time g))

/-- Run a list of per-tick inputs from a state. -/
def run (l : List Input) (g : Game) : Game :=
  l.foldl (fun a i => tick i a) g

/-- The states reachable from boot under arbitrary inputs. -/
inductive Reachable : Game → Prop where
  | init : Reachable initGame
  | step : ∀ (inp : Input) (g : Game), Reachable g → Reachable (tick inp g)

/-- The click decoder run over a whole sequence of raw button masks, carrying
the `static uint8_t last_buttons` state. -/
def clickSeq : List Nat → Nat → List Nat
  | [], _ => []
  | b :: rest, last => clickMask last b :: clickSeq rest b

/-- The clicked-button masks produced tick by tick from a sequence of raw
masks, starting from the initial `last_buttons = 0`. -/
def clicks (raw : List Nat) : List Nat :=
  clickSeq raw 0

/-- A concrete play-state configuration for claim C1: the ship sits in the top
half of row 0 and is about to enter column 1, whose cell holds only a BOTTOM
asteroid (bit `0x02`, the half the ship is NOT occupying). -/
def c1Game : Game :=
  { initGame with tag := StateTag.playGame,
                  shield_power := 5,
                  wave := 1,
                  asteroids := fun j => if j = 1 then 2 else 0 }

/-- The frame input for the C1 scenario (entropy 5 generates no obstacle at
wave 1, whose draw bound is 12). -/
def c1Input : Input := { time := 300, buttons := 0, rand0 := 5, rand1 := 5 }

/-- A concrete play-state configuration for claim C2: shield exhausted, ship
in the top half of row 0 about to enter column 1, which holds a TOP asteroid
(bit `0x01`, the ship's own half). -/
def c2Game : Game :=
  { initGame with tag := StateTag.playGame,
                  shield_power := 0,
                  wave := 1,
                  asteroids := fun j => if j = 1 then 1 else 0 }

/-- The frame input for the C2 scenario. -/
def c2Input : Input := { time := 300, buttons := 0, rand0 := 5, rand1 := 5 }

/-- A concrete play-state configuration for claim C4: score 498 (one frame
away from the 500 boundary), shield exhausted, and a collision waiting in
column 1 — the frame both flags a game-over and pushes the score to 500. -/
def c4Game : Game :=
  { initGame with tag := StateTag.playGame,
                  shield_power := 0,
                  wave := 1,
                  score := 498,
                  asteroids := fun j => if j = 1 then 1 else 0 }

/-- The frame input for the C4 scenario. -/
def c4Input : Input := { time := 300, buttons := 0, rand0 := 5, rand1 := 5 }

/-- A concrete state in `end_wave_delay` with the wave counter at its 8-bit
maximum, for claim C5. -/
def c5Game : Game :=
  { initGame with tag := StateTag.endWaveDelay,
                  wave := 255,
                  lastStateChangeTime := 0 }

/-- A concrete state in `end_wave_delay` with a small wave number, for the
witness of claim C5. -/
def c5SmallGame : Game :=
  { initGame with tag := StateTag.endWaveDelay,
                  wave := 3,
                  shield_power := 7,
                  score := 500,
                  lastStateChangeTime := 0 }

/-- The position bounds of claim C8: ship row in `[0, 3]`, render column and
player column in `[0, 39]` (the lower bounds hold by the unsigned types). -/
def Bounds (g : Game) : Prop :=
  g.player_row ≤ 3 ∧ g.render_col ≤ 39 ∧ g.player_col ≤ 39

/-- The effect of an up click on the ship row: decrement with floor 0. -/
def moveUp (clicked row : Nat) : Nat :=
  if clicked &&& BUTTON_UP ≠ 0 then (if row > 0 then row - 1 else 0) else row

/-- The effect of a down click on the ship row: increment with ceiling 3. -/
def moveDown (clicked row : Nat) : Nat :=
  if clicked &&& BUTTON_DOWN ≠ 0 then (if row < 3 then row + 1 else 3) else row

/-- A play-state configuration for the witness of claim C6: mid-play with a
pending render frame. -/
def c6wGame : Game :=
  { initGame with tag := StateTag.playGame,
                  shield_power := 10,
                  wave := 1,
                  score := 42,
                  lastTag := some StateTag.playGame }

/-- The tick input for the C6 witness. -/
def c6wInput : Input := { time := 300, buttons := 0, rand0 := 5, rand1 := 5 }

/-- Shorthand for building a tick input with bottom-row entropy 5. -/
def mkIn (t b r : Nat) : Input := { time := t, buttons := b, rand0 := r, rand1 := 5 }

/-- A full input trace for claim C6, driving the machine from boot to a
state whose tag is `start_game` while the score of the finished game is still
54: splash → select click → wave 1 → 27 render frames (the first 11 generate
a top asteroid in columns 17–27, which the ship then hits 11 times, emptying
the 10-point shield and ending the game) → game over → splash → select
click.  Times advance by 10000ms per tick so every delay gate passes. -/
def c6Trace : List Input :=
  [mkIn 10000 0 5, mkIn 20000 1 5, mkIn 30000 0 5, mkIn 40000 0 5,
   mkIn 50000 0 5, mkIn 60000 0 5, mkIn 70000 0 5,
   mkIn 80000 0 0, mkIn 90000 0 0, mkIn 100000 0 0, mkIn 110000 0 0,
   mkIn 120000 0 0, mkIn 130000 0 0, mkIn 140000 0 0, mkIn 150000 0 0,
   mkIn 160000 0 0, mkIn 170000 0 0, mkIn 180000 0 0,
   mkIn 190000 0 5, mkIn 200000 0 5, mkIn 210000 0 5, mkIn 220000 0 5,
   mkIn 230000 0 5, mkIn 240000 0 5, mkIn 250000 0 5, mkIn 260000 0 5,
   mkIn 270000 0 5, mkIn 280000 0 5, mkIn 290000 0 5, mkIn 300000 0 5,
   mkIn 310000 0 5, mkIn 320000 0 5, mkIn 330000 0 5, mkIn 340000 0 5,
   mkIn 350000 0 5, mkIn 360000 0 5, mkIn 370000 0 5, mkIn 380000 0 5,
   mkIn 390000 1 5, mkIn 400000 0 5]

/-- The tick input that runs `start_game` at the end of the C6 trace. -/
def c6Last : Input := mkIn 410000 0 5

/-- A game-over-state configuration carrying a positive score, for the
witness of claim C10. -/
def c10Game : Game :=
  { initGame with tag := StateTag.gameOver,
                  score := 54,
                  lastTag := some StateTag.playGame }

/-- A splash-animate configuration with the select button held on the
previous tick, for the witness of claim C10. -/
def c10SplashGame : Game :=
  { initGame with tag := StateTag.animateSplashScreen,
                  score := 54,
                  lastButtons := 1,
                  lastTag := some StateTag.animateSplashScreen }

/-- The tick input for the C10 witness (select released this tick). -/
def c10Input : Input := { time := 500, buttons := 0, rand0 := 5, rand1 := 5 }

end AsteroidRunner

namespace AsteroidRunner

/-! ### Helper lemmas about the embedded operations -/

theorem advanceCol_le (c : Nat) : advanceCol c ≤ 39 := by
  unfold advanceCol
  split <;> omega

theorem renderStep_player_row (inp : Input) (g : Game) :
    (renderStep inp g).player_row = g.player_row := by
  unfold renderStep
  split <;> [skip; rfl]
  split <;> rfl

theorem renderStep_clickedButtons (inp : Input) (g : Game) :
    (renderStep inp g).clickedButtons = g.clickedButtons := by
  unfold renderStep
  split <;> [skip; rfl]
  split <;> rfl

theorem renderStep_score (inp : Input) (g : Game) :
    (renderStep inp g).score = g.score + 2 := by
  unfold renderStep
  split <;> [skip; rfl]
  split <;> rfl

theorem renderStep_render_col (inp : Input) (g : Game) :
    (renderStep inp g).render_col = advanceCol g.render_col := by
  unfold renderStep
  split <;> [skip; rfl]
  split <;> rfl

theorem renderStep_player_col (inp : Input) (g : Game) :
    (renderStep inp g).player_col = advanceCol g.player_col := by
  unfold renderStep
  split <;> [skip; rfl]
  split <;> rfl

theorem waveCheck_score (g : Game) : (waveCheck g).score = g.score := by
  unfold waveCheck
  split <;> rfl

theorem shipMove_score (g : Game) : (shipMove g).score = g.score := by
  simp only [shipMove]
  split_ifs <;> rfl

theorem waveCheck_player_row (g : Game) :
    (waveCheck g).player_row = g.player_row := by
  unfold waveCheck
  split <;> rfl

theorem waveCheck_render_col (g : Game) :
    (waveCheck g).render_col = g.render_col := by
  unfold waveCheck
  split <;> rfl

theorem waveCheck_player_col (g : Game) :
    (waveCheck g).player_col = g.player_col := by
  unfold waveCheck
  split <;> rfl

theorem shipMove_render_col (g : Game) :
    (shipMove g).render_col = g.render_col := by
  simp only [shipMove]
  split_ifs <;> rfl

theorem shipMove_player_col (g : Game) :
    (shipMove g).player_col = g.player_col := by
  simp only [shipMove]
  split_ifs <;> rfl

theorem shipMove_player_row (g : Game) :
    (shipMove g).player_row =
      moveDown g.clickedButtons (moveUp g.clickedButtons g.player_row) := by
  by_cases hup : g.clickedButtons &&& BUTTON_UP ≠ 0 <;>
    by_cases hdn : g.clickedButtons &&& BUTTON_DOWN ≠ 0 <;>
    simp [shipMove, moveUp, moveDown, hup, hdn]

theorem scc_tag (t : Nat) (g : Game) : (stateChangeCheck t g).tag = g.tag := by
  unfold stateChangeCheck
  split <;> rfl

theorem scc_player_row (t : Nat) (g : Game) :
    (stateChangeCheck t g).player_row = g.player_row := by
  unfold stateChangeCheck
  split <;> rfl

theorem scc_render_col (t : Nat) (g : Game) :
    (stateChangeCheck t g).render_col = g.render_col := by
  unfold stateChangeCheck
  split <;> rfl

theorem scc_player_col (t : Nat) (g : Game) :
    (stateChangeCheck t g).player_col = g.player_col := by
  unfold stateChangeCheck
  split <;> rfl

theorem scc_score (t : Nat) (g : Game) :
    (stateChangeCheck t g).score = g.score := by
  unfold stateChangeCheck
  split <;> rfl

theorem scc_last_render (t : Nat) (g : Game) :
    (stateChangeCheck t g).last_render = g.last_render := by
  unfold stateChangeCheck
  split <;> rfl

theorem scc_lastButtons (t : Nat) (g : Game) :
    (stateChangeCheck t g).lastButtons = g.lastButtons := by
  unfold stateChangeCheck
  split <;> rfl

theorem rbc_tag (b : Nat) (g : Game) :
    (read_button_clicks b g).tag = g.tag := rfl

theorem rbc_player_row (b : Nat) (g : Game) :
    (read_button_clicks b g).player_row = g.player_row := rfl

theorem rbc_render_col (b : Nat) (g : Game) :
    (read_button_clicks b g).render_col = g.render_col := rfl

theorem rbc_player_col (b : Nat) (g : Game) :
    (read_button_clicks b g).player_col = g.player_col := rfl

theorem rbc_score (b : Nat) (g : Game) :
    (read_button_clicks b g).score = g.score := rfl

theorem rbc_last_render (b : Nat) (g : Game) :
    (read_button_clicks b g).last_render = g.last_render := rfl

theorem rbc_clickedButtons (b : Nat) (g : Game) :
    (read_button_clicks b g).clickedButtons =
      clickMask g.lastButtons (b % 256) := rfl

theorem bounds_renderStep (inp : Input) (g : Game) (h : Bounds g) :
    Bounds (renderStep inp g) :=
  ⟨by rw [renderStep_player_row]; exact h.1,
   by rw [renderStep_render_col]; exact advanceCol_le _,
   by rw [renderStep_player_col]; exact advanceCol_le _⟩

theorem moveUp_le (clicked row : Nat) (h : row ≤ 3) : moveUp clicked row ≤ 3 := by
  unfold moveUp
  split_ifs <;> omega

theorem moveDown_le (clicked row : Nat) (h : row ≤ 3) :
    moveDown clicked row ≤ 3 := by
  unfold moveDown
  split_ifs <;> omega

theorem bounds_play_game (inp : Input) (g : Game) (h : Bounds g) :
    Bounds (play_game inp g) := by
  unfold play_game
  have h1 : Bounds (if 250 ≤ inp.time - g.last_render then renderStep inp g else g) := by
    split
    · exact bounds_renderStep inp g h
    · exact h
  refine ⟨?_, ?_, ?_⟩
  · rw [waveCheck_player_row, shipMove_player_row]
    exact moveDown_le _ _ (moveUp_le _ _ h1.1)
  · rw [waveCheck_render_col, shipMove_render_col]
    exact h1.2.1
  · rw [waveCheck_player_col, shipMove_player_col]
    exact h1.2.2

theorem bounds_dispatch (inp : Input) (g : Game) (h : Bounds g) :
    Bounds (dispatch inp g) := by
  unfold dispatch
  split
  · exact h
  · unfold animate_splash_screen
    split <;> exact h
  · exact h
  · norm_num [begin_wave, Bounds]
  · unfold begin_wave_delay
    split <;> exact h
  · exact bounds_play_game inp g h
  · exact h
  · unfold end_wave_delay
    split <;> exact h
  · exact h
  · unfold game_over_delay
    split <;> exact h

theorem bounds_tick (inp : Input) (g : Game) (h : Bounds g) :
    Bounds (tick inp g) := by
  unfold tick
  apply bounds_dispatch
  exact ⟨by rw [rbc_player_row, scc_player_row]; exact h.1,
         by rw [rbc_render_col, scc_render_col]; exact h.2.1,
         by rw [rbc_player_col, scc_player_col]; exact h.2.2⟩

/-! ### Claim C9 -/

/-- Claim C9: for each row `i` of a newly exposed column, the random draw `r`
maps to obstacle content as: 0 sets the top-obstacle bit, 1 sets the
bottom-obstacle bit, 2 sets both bits only when `wave > 5` (and leaves the
row empty otherwise), and any other value leaves the row empty. -/
theorem C9_obstacle_map (wave i : Nat) :
    obstacleMask wave 0 i = 0x01 <<< (i * 2)
    ∧ obstacleMask wave 1 i = 0x02 <<< (i * 2)
    ∧ (wave > 5 → obstacleMask wave 2 i = 0x03 <<< (i * 2))
    ∧ (¬ wave > 5 → obstacleMask wave 2 i = 0)
    ∧ (∀ r, 3 ≤ r → obstacleMask wave r i = 0) := by
  refine ⟨rfl, rfl, fun h => ?_, fun h => ?_, fun r hr => ?_⟩
  · simp [obstacleMask, h]
  · simp [obstacleMask, h]
  · simp only [obstacleMask]
    rw [if_neg (by omega), if_neg (by omega), if_neg (by omega)]

/-- Witness for C9 at `wave = 6`, `i = 0`, draw values 2 and 7. -/
theorem C9_witness :
    obstacleMask 6 2 0 = 0x03 <<< (0 * 2) ∧ obstacleMask 6 7 0 = 0 :=
  ⟨(C9_obstacle_map 6 0).2.2.1 (by decide),
   (C9_obstacle_map 6 0).2.2.2.2 7 (by decide)⟩

/-! ### Claim C3 -/

/-- Counterexample for C3: at `wave = 14` the 8-bit subtraction `13 - wave`
wraps to 255, which escapes the `< 3` clamp, so the draw bound is 255 while
`max(3, 13 - 14) = 3` over the integers. -/
theorem C3_counterexample :
    asteroidType 14 = 255 ∧ max 3 ((13 : Int) - 14) = 3 := by
  constructor
  · decide
  · decide

/-- Claim C3 as amended: the draw bound equals `max(3, 13 - wave)` only for
`wave ≤ 13`; from `wave = 14` on, the 8-bit wraparound of `13 - wave` makes
the bound `269 - wave`, which is at least 14.  In all cases the bound is at
least 3. -/
theorem C3_amended_bound (w : Nat) (hw : w ≤ 255) :
    (w ≤ 13 → asteroidType w = max 3 (13 - w))
    ∧ (14 ≤ w → asteroidType w = 269 - w)
    ∧ 3 ≤ asteroidType w := by
  have h8 : w % 256 = w := Nat.mod_eq_of_lt (by omega)
  simp only [asteroidType, h8]
  refine ⟨fun h => ?_, fun h => ?_, ?_⟩ <;> split <;> omega

/-- Witness for C3 at the spec's own scenario `wave = 12`: `13 - 12 = 1`
clamps to 3. -/
theorem C3_witness : asteroidType 12 = max 3 (13 - 12) :=
  (C3_amended_bound 12 (by decide)).1 (by decide)

/-! ### Claim C5 -/

/-- Counterexample for C5: `wave` is a `uint8_t`, so when `end_wave_delay`
completes at `wave = 255` the increment wraps to 0 instead of increasing by
exactly 1. -/
theorem C5_counterexample :
    c5Game.wave = 255 ∧ (end_wave_delay 3000 c5Game).wave = 0
      ∧ (end_wave_delay 3000 c5Game).tag = StateTag.beginWave := by
  refine ⟨rfl, ?_, ?_⟩ <;> decide

/-- Claim C5 as amended: each time `end_wave_delay` completes (3000ms elapsed
since entering the state), the wave number increments modulo 256 — by exactly
1 whenever it is below 255 — and the next state is `begin_wave`; and on every
entry to `end_wave` the score increases by exactly `shield_power * 10`. -/
theorem C5_amended (time : Nat) (g : Game)
    (h : 3000 ≤ time - g.lastStateChangeTime) :
    ((end_wave_delay time g).wave = (g.wave + 1) % 256
      ∧ (g.wave < 255 → (end_wave_delay time g).wave = g.wave + 1)
      ∧ (end_wave_delay time g).tag = StateTag.beginWave)
    ∧ ((end_wave g).score = g.score + g.shield_power * 10
      ∧ (end_wave g).tag = StateTag.endWaveDelay) := by
  unfold end_wave_delay end_wave
  rw [if_pos h]
  exact ⟨⟨rfl, fun hw => by simp; omega, rfl⟩, rfl, rfl⟩

/-- Witness for C5 at a concrete completing delay state with `wave = 3`,
`shield_power = 7`. -/
theorem C5_witness :
    (end_wave_delay 3000 c5SmallGame).wave = (c5SmallGame.wave + 1) % 256
      ∧ (end_wave c5SmallGame).score =
          c5SmallGame.score + c5SmallGame.shield_power * 10 :=
  ⟨((C5_amended 3000 c5SmallGame (by decide)).1).1,
   ((C5_amended 3000 c5SmallGame (by decide)).2).1⟩

/-! ### Claim C1 -/

/-- Counterexample for C1: with the ship in the top half (`player_row = 0`)
and only the BOTTOM-asteroid bit set in the cell the ship enters — i.e. the
opposite half-row bit, the one the claim says flags a hit — the render step
flags no hit: the shield is untouched, the state stays `play`, and the
backlight is not forced to the danger color. -/
theorem C1_counterexample :
    frameAsteroids c1Input c1Game (advanceCol c1Game.player_col)
        &&& otherHalfBit c1Game.player_row ≠ 0
    ∧ (renderStep c1Input c1Game).shield_power = 5
    ∧ (renderStep c1Input c1Game).tag = StateTag.playGame
    ∧ (renderStep c1Input c1Game).backlight ≠ RED := by
  refine ⟨?_, ?_, ?_, ?_⟩ <;> decide

/-- Claim C1 as amended: in the play state's render step a hit is flagged
exactly when the half-row bit of the half the ship IS occupying is set in the
ship's current cell (top bit `0x01` for even `player_row`, bottom bit `0x02`
for odd); on a hit the backlight is forced to the danger color RED and the
game transitions to game-over if shield power is already 0, otherwise shield
power is decremented by 1. -/
theorem C1_amended_hit_rule (inp : Input) (g : Game) :
    ((renderStep inp g).shield_power =
        if hitCheck inp g then
          (if g.shield_power = 0 then g.shield_power else g.shield_power - 1)
        else g.shield_power)
    ∧ ((renderStep inp g).tag =
        if hitCheck inp g ∧ g.shield_power = 0 then StateTag.gameOver
        else g.tag)
    ∧ ((renderStep inp g).backlight =
        if hitCheck inp g then RED else shieldBacklight g.shield_power) := by
  unfold renderStep
  by_cases hh : hitCheck inp g
  · by_cases h0 : g.shield_power = 0
    · rw [if_pos hh, if_pos h0, if_pos hh, if_pos h0, if_pos ⟨hh, h0⟩,
        if_pos hh]
      exact ⟨rfl, rfl, rfl⟩
    · rw [if_pos hh, if_neg h0, if_pos hh, if_neg h0,
        if_neg (fun hc => h0 hc.2), if_pos hh]
      exact ⟨rfl, rfl, rfl⟩
  · rw [if_neg hh, if_neg hh, if_neg (fun hc => hh hc.1), if_neg hh]
    exact ⟨rfl, rfl, rfl⟩

/-! ### Claim C2 -/

/-- Claim C2: the collision handler checks shield power before decrementing —
on a hit with shield power 0 the state becomes game-over and the shield is
left untouched (never negative), and on a hit with positive shield power the
shield decreases by exactly 1 and the state is unchanged. -/
theorem C2_shield_guard (inp : Input) (g : Game) (hh : hitCheck inp g) :
    (g.shield_power = 0 →
      (renderStep inp g).tag = StateTag.gameOver
        ∧ (renderStep inp g).shield_power = g.shield_power)
    ∧ (0 < g.shield_power →
      (renderStep inp g).shield_power = g.shield_power - 1
        ∧ (renderStep inp g).tag = g.tag) := by
  unfold renderStep
  rw [if_pos hh]
  constructor
  · intro h0
    rw [if_pos h0]
    exact ⟨rfl, rfl⟩
  · intro hpos
    rw [if_neg (by omega)]
    exact ⟨rfl, rfl⟩

/-- Witness for C2: a collision with shield power 0 moves the state to
game-over with the shield still 0. -/
theorem C2_witness :
    (renderStep c2Input c2Game).tag = StateTag.gameOver
      ∧ (renderStep c2Input c2Game).shield_power = c2Game.shield_power :=
  (C2_shield_guard c2Input c2Game (by decide)).1 (by decide)

/-! ### Claim C4 -/

/-- Claim C4: on any tick of the play state whose final score is a multiple
of 500, the next state is end-wave — the `score % 500` check runs last and
overwrites even a game-over transition flagged by the same tick's render
step. -/
theorem C4_endwave_precedence (inp : Input) (g : Game)
    (h : (play_game inp g).score % 500 = 0) :
    (play_game inp g).tag = StateTag.endWave := by
  unfold play_game at h ⊢
  rw [waveCheck_score] at h
  unfold waveCheck
  rw [if_pos h]

/-- Witness for C4: a frame in which the score reaches 500 while a collision
with shield power 0 occurs — the next state is end-wave, not game-over. -/
theorem C4_witness :
    (play_game c4Input c4Game).score % 500 = 0
      ∧ (play_game c4Input c4Game).tag = StateTag.endWave :=
  ⟨by decide, C4_endwave_precedence c4Input c4Game (by decide)⟩

/-! ### Claim C7 -/

theorem testBit_255 (i : Nat) : Nat.testBit 255 i = decide (i < 8) := by
  have h : (255 : Nat) = 2 ^ 8 - 1 := by norm_num
  rw [h, Nat.testBit_two_pow_sub_one]

theorem clickMask_testBit (l b i : Nat) (hl : l < 256) (hb : b < 256) :
    (clickMask l b).testBit i = (l.testBit i && !(b.testBit i)) := by
  unfold clickMask
  rw [Nat.testBit_and, Nat.testBit_xor, Nat.testBit_xor, testBit_255]
  by_cases h : i < 8
  · have hd : decide (i < 8) = true := by simp [h]
    rw [hd]
    cases l.testBit i <;> cases b.testBit i <;> rfl
  · have hp : (256 : Nat) ≤ 2 ^ i := by
      calc (256 : Nat) = 2 ^ 8 := by norm_num
        _ ≤ 2 ^ i := Nat.pow_le_pow_right (by norm_num) (by omega)
    rw [Nat.testBit_lt_two_pow (lt_of_lt_of_le hl hp),
      Nat.testBit_lt_two_pow (lt_of_lt_of_le hb hp)]
    simp [h]

theorem clickSeq_length (raw : List Nat) (last : Nat) :
    (clickSeq raw last).length = raw.length := by
  induction raw generalizing last with
  | nil => rfl
  | cons b rest ih => simp [clickSeq, ih]

theorem clickSeq_getD (raw : List Nat) (last t : Nat) (ht : t < raw.length) :
    (clickSeq raw last).getD t 0 =
      clickMask (if t = 0 then last else raw.getD (t - 1) 0) (raw.getD t 0) := by
  induction raw generalizing last t with
  | nil => simp at ht
  | cons b rest ih =>
    cases t with
    | zero => simp [clickSeq]
    | succ u =>
      simp only [clickSeq, List.getD_cons_succ]
      rw [ih b u (by simpa using ht)]
      cases u with
      | zero => simp
      | succ v => simp

/-- Claim C7: for every sequence of raw button bitmasks (8-bit values), the
clicked mask on tick `t` contains a bit exactly when that bit was set in the
raw mask of tick `t - 1` and is clear in the raw mask of tick `t`; on the
very first tick the clicked mask is empty. -/
theorem C7_falling_edge (raw : List Nat) (hb : ∀ b ∈ raw, b < 256) :
    (∀ t, t < raw.length → ∀ i,
      (((clicks raw).getD t 0).testBit i = true ↔
        0 < t ∧ (raw.getD (t - 1) 0).testBit i = true
          ∧ (raw.getD t 0).testBit i = false))
    ∧ (0 < raw.length → (clicks raw).getD 0 0 = 0) := by
  have hcur : ∀ t, t < raw.length → raw.getD t 0 < 256 := by
    intro t ht
    rw [List.getD_eq_getElem raw 0 ht]
    exact hb _ (List.getElem_mem ht)
  constructor
  · intro t ht i
    have hprev : (if t = 0 then (0 : Nat) else raw.getD (t - 1) 0) < 256 := by
      split
      · omega
      · exact hcur (t - 1) (by omega)
    rw [clicks, clickSeq_getD raw 0 t ht,
      clickMask_testBit _ _ i hprev (hcur t ht)]
    cases t with
    | zero => simp
    | succ u => simp [Bool.and_eq_true, Bool.not_eq_true']
  · intro hlen
    rw [clicks, clickSeq_getD raw 0 0 hlen]
    apply Nat.eq_of_testBit_eq
    intro i
    rw [clickMask_testBit _ _ i (by simp) (hcur 0 hlen)]
    simp

/-- Witness for C7 on the raw sequence `[5, 1, 3]`: bit 2 was pressed on tick
0 and released on tick 1, so it appears in the clicked mask of tick 1; the
clicked mask of tick 0 is empty. -/
theorem C7_witness :
    ((clicks [5, 1, 3]).getD 1 0).testBit 2 = true
      ∧ (clicks [5, 1, 3]).getD 0 0 = 0 :=
  ⟨((C7_falling_edge [5, 1, 3] (by simp)).1 1 (by decide) 2).mpr (by decide),
   (C7_falling_edge [5, 1, 3] (by simp)).2 (by decide)⟩

/-! ### Claim C8 -/

/-- Claim C8: in every reachable state the ship's row is in `[0, 3]` and the
render column and ship column are in `[0, 39]`; and independently of the
render gate, every play tick applies the up-click decrement (floor 0)
followed by the down-click increment (ceiling 3) to the ship row. -/
theorem C8_position_bounds :
    (∀ g : Game, Reachable g → Bounds g)
    ∧ (∀ (inp : Input) (g : Game),
        (play_game inp g).player_row =
          moveDown g.clickedButtons (moveUp g.clickedButtons g.player_row)) := by
  constructor
  · intro g hr
    induction hr with
    | init => exact ⟨Nat.zero_le 3, by norm_num [initGame], Nat.zero_le 39⟩
    | step inp g hre ih => exact bounds_tick inp g ih
  · intro inp g
    unfold play_game
    rw [waveCheck_player_row, shipMove_player_row]
    split
    · rw [renderStep_player_row, renderStep_clickedButtons]
    · rfl

/-- Witness for C8 at the boot state, which is reachable by construction. -/
theorem C8_witness : Bounds initGame :=
  C8_position_bounds.1 initGame Reachable.init

end AsteroidRunner

namespace AsteroidRunner

/-! ### Score lemmas for the individual state handlers -/

theorem begin_splash_screen_score (g : Game) :
    (begin_splash_screen g).score = g.score := rfl

theorem animate_splash_screen_score (g : Game) :
    (animate_splash_screen g).score = g.score := by
  unfold animate_splash_screen
  split <;> rfl

theorem start_game_score (g : Game) : (start_game g).score = 0 := rfl

theorem begin_wave_score (g : Game) : (begin_wave g).score = g.score := rfl

theorem begin_wave_delay_score (t : Nat) (g : Game) :
    (begin_wave_delay t g).score = g.score := by
  unfold begin_wave_delay
  split <;> rfl

theorem play_game_score (inp : Input) (g : Game) :
    (play_game inp g).score =
      g.score + (if 250 ≤ inp.time - g.last_render then 2 else 0) := by
  unfold play_game
  rw [waveCheck_score, shipMove_score]
  by_cases hgate : 250 ≤ inp.time - g.last_render
  · rw [if_pos hgate, if_pos hgate, renderStep_score]
  · rw [if_neg hgate, if_neg hgate]
    omega

theorem end_wave_score (g : Game) :
    (end_wave g).score = g.score + g.shield_power * 10 := rfl

theorem end_wave_delay_score (t : Nat) (g : Game) :
    (end_wave_delay t g).score = g.score := by
  unfold end_wave_delay
  split <;> rfl

theorem game_over_score (g : Game) : (game_over g).score = g.score := rfl

theorem game_over_delay_score (t : Nat) (g : Game) :
    (game_over_delay t g).score = g.score := by
  unfold game_over_delay
  split <;> rfl

theorem dispatch_of_animate (inp : Input) (g : Game)
    (h : g.tag = StateTag.animateSplashScreen) :
    dispatch inp g = animate_splash_screen g := by
  unfold dispatch
  rw [h]

/-! ### Claim C6 -/

theorem run_reachable (l : List Input) (g : Game) (h : Reachable g) :
    Reachable (run l g) := by
  induction l generalizing g with
  | nil => exact h
  | cons i rest ih => exact ih (tick i g) (Reachable.step i g h)

set_option maxRecDepth 40000 in
/-- Counterexample for C6: a reachable state — reached by an explicit input
trace that plays a full game to score 54, loses, returns to the splash screen
and clicks select — whose tag is `start_game`; the very next tick resets the
score from 54 to 0, so the score is not non-decreasing across the ticks of
every state. -/
theorem C6_counterexample :
    Reachable (run c6Trace initGame)
    ∧ (run c6Trace initGame).tag = StateTag.startGame
    ∧ (run c6Trace initGame).score = 54
    ∧ (tick c6Last (run c6Trace initGame)).score = 0 :=
  ⟨run_reachable c6Trace initGame Reachable.init, by decide, by decide, by decide⟩

/-- Claim C6 as amended: the score is non-decreasing on every tick of every
state except `start_game`, whose tick resets it to 0 (the previous game's
score carries through the splash states); and on every render-gated frame of
the play state the score increases by exactly 2, one per logical row,
independent of whether an obstacle was generated. -/
theorem C6_amended_score (inp : Input) (g : Game) :
    (g.tag ≠ StateTag.startGame → g.score ≤ (tick inp g).score)
    ∧ (g.tag = StateTag.playGame → 250 ≤ inp.time - g.last_render →
        (tick inp g).score = g.score + 2) := by
  constructor
  · intro hne
    unfold tick dispatch
    cases htag : (read_button_clicks inp.buttons (stateChangeCheck inp.time g)).tag
    case startGame =>
      rw [rbc_tag, scc_tag] at htag
      exact absurd htag hne
    case beginSplashScreen =>
      rw [begin_splash_screen_score, rbc_score, scc_score]
    case animateSplashScreen =>
      rw [animate_splash_screen_score, rbc_score, scc_score]
    case beginWave =>
      rw [begin_wave_score, rbc_score, scc_score]
    case beginWaveDelay =>
      rw [begin_wave_delay_score, rbc_score, scc_score]
    case playGame =>
      rw [play_game_score, rbc_score, scc_score]
      split <;> omega
    case endWave =>
      rw [end_wave_score, rbc_score, scc_score]
      omega
    case endWaveDelay =>
      rw [end_wave_delay_score, rbc_score, scc_score]
    case gameOver =>
      rw [game_over_score, rbc_score, scc_score]
    case gameOverDelay =>
      rw [game_over_delay_score, rbc_score, scc_score]
  · intro htag hgate
    unfold tick dispatch
    rw [show (read_button_clicks inp.buttons (stateChangeCheck inp.time g)).tag
          = StateTag.playGame by rw [rbc_tag, scc_tag]; exact htag]
    rw [play_game_score, rbc_score, scc_score, rbc_last_render, scc_last_render,
      if_pos hgate]

/-- Witness for C6 on a concrete render-gated play tick: the score goes from
42 to 44. -/
theorem C6_witness : (tick c6wInput c6wGame).score = c6wGame.score + 2 :=
  (C6_amended_score c6wInput c6wGame).2 rfl (by decide)

/-! ### Claim C10 -/

/-- Claim C10: the score is left unchanged by the ticks of the game-over,
game-over-delay, splash and splash-animate states; the tick of `start_game`
resets it to 0; and the splash-animate state hands control to `start_game`
exactly when the tick's click mask contains the select button. -/
theorem C10_score_persistence (inp : Input) (g : Game) :
    ((g.tag = StateTag.gameOver ∨ g.tag = StateTag.gameOverDelay
        ∨ g.tag = StateTag.beginSplashScreen
        ∨ g.tag = StateTag.animateSplashScreen) →
      (tick inp g).score = g.score)
    ∧ (g.tag = StateTag.startGame → (tick inp g).score = 0)
    ∧ (g.tag = StateTag.animateSplashScreen →
        ((tick inp g).tag = StateTag.startGame ↔
          clickMask g.lastButtons (inp.buttons % 256) &&& BUTTON_SELECT ≠ 0)) := by
  refine ⟨?_, ?_, ?_⟩
  · intro hc
    unfold tick dispatch
    rcases hc with h | h | h | h <;>
      rw [show (read_button_clicks inp.buttons (stateChangeCheck inp.time g)).tag
            = g.tag by rw [rbc_tag, scc_tag], h]
    · rw [game_over_score, rbc_score, scc_score]
    · rw [game_over_delay_score, rbc_score, scc_score]
    · rw [begin_splash_screen_score, rbc_score, scc_score]
    · rw [animate_splash_screen_score, rbc_score, scc_score]
  · intro h
    unfold tick dispatch
    rw [show (read_button_clicks inp.buttons (stateChangeCheck inp.time g)).tag
          = g.tag by rw [rbc_tag, scc_tag], h]
    rw [start_game_score]
  · intro h
    have htag : (read_button_clicks inp.buttons (stateChangeCheck inp.time g)).tag
        = StateTag.animateSplashScreen := by
      rw [rbc_tag, scc_tag]
      exact h
    unfold tick
    rw [dispatch_of_animate inp _ htag]
    unfold animate_splash_screen
    rw [rbc_clickedButtons, scc_lastButtons]
    by_cases hc : clickMask g.lastButtons (inp.buttons % 256) &&& BUTTON_SELECT ≠ 0
    · rw [if_pos hc]
      exact ⟨fun _ => hc, fun _ => rfl⟩
    · rw [if_neg hc]
      constructor
      · intro htag2
        rw [rbc_tag, scc_tag, h] at htag2
        exact absurd htag2 (by decide)
      · intro hcc
        exact absurd hcc hc

/-- Witness for C10: a game-over tick keeps the score at 54, and a
select-button release on the splash screen hands control to `start_game`. -/
theorem C10_witness :
    (tick c10Input c10Game).score = c10Game.score
      ∧ (tick c10Input c10SplashGame).tag = StateTag.startGame :=
  ⟨(C10_score_persistence c10Input c10Game).1 (Or.inl rfl),
   ((C10_score_persistence c10Input c10SplashGame).2.2 rfl).mpr (by decide)⟩

end AsteroidRunner
